import Mathlib

/-!
Shallow embedding, over exact real arithmetic, of the two calculation engines of the
heat-calculator repository: the heat-exchanger parameter solver (with its LMTD,
effectiveness, correction-factor and iterative-duty subroutines, from
`src/pages/heat-exchanger.js`) and the thermal-resistance network calculator
(`calculate` in the same file).  JavaScript numbers are modelled as real numbers;
where the source relies on `NaN`/`Infinity` propagation (the `isFinite` guards of
`calculateCorrectionFactor`), the conditions under which the JavaScript computation
becomes non-finite are transliterated into explicit real-arithmetic guards, noted at
each definition.  JavaScript truthiness (`x && y`, `x || y`) on possibly-absent
values is modelled on `Option ℝ`: a value is truthy when it is present and nonzero.
-/

namespace HeatCalc

noncomputable section

open scoped Classical

/-- The eleven heat-exchanger parameter identifiers of the registry. -/
inductive Param
  | Th_in | Tc_in | Th_out | Tc_out | m_h | m_c | cp_h | cp_c | A | U | Q
deriving DecidableEq

/-- Flow arrangement (`type` in the source): parallel, counter, or shell-and-tube. -/
inductive FlowType
  | parallel | counter | shellTube
deriving DecidableEq

/-- Shell-tube configuration strings accepted by `calculateCorrectionFactor`:
`"1-2"`, `"2-4"`, `"1-4"`, `"1-6"`, `"counter"`, `"parallel"`. -/
inductive ShellConfig
  | c12 | c24 | c14 | c16 | counter | parallel
deriving DecidableEq

/-- The errors thrown by `solveHeatExchanger` and its helpers, one constructor per
distinct `throw new Error(...)` site in the source. -/
inductive HXError
  | insufficientKnowns
  | noUnknownsSelected
  | missingValue (p : Param)
  | invalidTemperatureDifference
  | physicallyInvalidResult
  | convergenceFailure
  | aNonpositiveLMTD
  | insufficientForBothOutlets
deriving DecidableEq

/-! ## Correction factor calculator (source lines 154-223)

The source computes with IEEE doubles and falls back to `F = 1` via `isFinite`
checks.  Over `ℝ` every value is finite, so each `isFinite` guard is transliterated
into the exact condition under which the JavaScript intermediate would have been
`NaN` or `±Infinity`: a nonpositive `Math.log` argument, a negative base of
`Math.pow` with fractional exponent, or a vanishing divisor. -/

/-- Limiting closed form used when `|R - 1| < 1e-6` (source lines 159-168 for the
1-2 branch, and lines 181-191 with `P2 = P/2` for the 2-4 branch).  The source
returns the computed `F` when `isFinite(F)`; `F` is non-finite exactly when the log
argument is nonpositive (JS `NaN`) or the denominator `P * log(...)` vanishes
(JS `±Infinity`), in which cases 1 is returned. -/
def limitF12 (P : ℝ) : ℝ :=
  let num := 2 - P * (1 + 1 / Real.sqrt 2)
  let den := 2 - P * (1 - 1 / Real.sqrt 2)
  if num / den ≤ 0 ∨ P * Real.log (num / den) = 0 then 1
  else Real.sqrt 2 * (1 - P) / (P * Real.log (num / den))

/-- Generalized Bowman branch, shared by the configurations
1-2 (`e = 1/2`, `d = 1`, source lines 169-175), 2-4 (`e = 1/4`, `d = 1`, lines
192-198), 1-4 (`e = 1/4`, `d = 2`, lines 199-206) and 1-6 (`e = 1/6`, `d = 3`,
lines 207-214); `e` is the exponent on `W` and `d` scales the log divisor.
`Math.pow` of a negative base with fractional exponent is `NaN` and a zero base
ratio denominator gives `Infinity`, so the source returns 1 whenever
`1 - P*R ≤ 0`; a vanishing `arg` denominator or `log arg = 0` likewise makes the
final `isFinite(F) && F > 0` guard return 1, which the real-arithmetic guards
below reproduce. -/
def generalF (P R e d : ℝ) : ℝ :=
  let S := Real.sqrt (R * R + 1) / (R - 1)
  if 1 - P * R ≤ 0 then 1
  else
    let W := ((1 - P) / (1 - P * R)) ^ e
    if |W - 1| < 1e-6 then 1
    else
      let arg := (1 + W - S + S * W) / (1 + W + S - S * W)
      if arg ≤ 0 then 1
      else
        let F := S * Real.log W / (d * Real.log arg)
        if 0 < F then F else 1

/-- The full function specialized to configuration `"1-2"`, used by the `2-4`
branch which re-enters `calculateCorrectionFactor(P, R, "1-2")`. -/
def corrF12 (P R : ℝ) : ℝ :=
  if P ≤ 0 ∨ 1 ≤ P ∨ R ≤ 0 then 1
  else if |R - 1| < 1e-6 then limitF12 P
  else generalF P R (1 / 2) 1

/-- The function `calculateCorrectionFactor(P, R, config)` (source lines 154-223).  The domain
guard `P <= 0 || P >= 1 || R <= 0` returns 1; the `2-4` branch computes the
transition point `P1` via the hyperbolic-tangent relation and recurses into the
1-2 formula below it; `"counter"`, `"parallel"` and the default arm return 1. -/
def calculateCorrectionFactor (P R : ℝ) (config : ShellConfig) : ℝ :=
  if P ≤ 0 ∨ 1 ≤ P ∨ R ≤ 0 then 1
  else
    match config with
    | .c12 => if |R - 1| < 1e-6 then limitF12 P else generalF P R (1 / 2) 1
    | .c24 =>
        let P1 := 2 / R *
          (1 - Real.sqrt (R * R + 1) / Real.tanh (Real.sqrt (R * R + 1) / 2))
        if P ≤ P1 then corrF12 P R
        else if |R - 1| < 1e-6 then limitF12 (P / 2)
        else generalF P R (1 / 4) 1
    | .c14 => generalF P R (1 / 4) 2
    | .c16 => generalF P R (1 / 6) 3
    | .counter => 1
    | .parallel => 1

/-! Basic facts about the limiting branch.  Writing `r := num / den` with
`num = 2 - P*(1 + 1/√2)` and `den = 2 - P*(1 - 1/√2)`: for `0 < P < 1` both
`num` and `den` are positive and `num < den`, so `r ∈ (0, 1)`, `log r < 0`, and
the value returned by the limiting branch is strictly negative. -/

lemma one_lt_sqrt_two : 1 < Real.sqrt 2 := by
  have h := Real.lt_sqrt (x := 1) (y := 2) (by norm_num)
  rw [h]; norm_num

lemma inv_sqrt_two_lt_one : 1 / Real.sqrt 2 < 1 := by
  rw [div_lt_one (by positivity)]
  exact one_lt_sqrt_two

lemma limitF12_num_pos {P : ℝ} (h0 : 0 < P) (h1 : P < 1) :
    0 < 2 - P * (1 + 1 / Real.sqrt 2) := by
  have h2 : P * (1 + 1 / Real.sqrt 2) < 1 * 2 := by
    apply mul_lt_mul' (le_of_lt h1) _ (by positivity) one_pos
    linarith [inv_sqrt_two_lt_one]
  linarith

lemma limitF12_den_pos {P : ℝ} (h0 : 0 < P) (h1 : P < 1) :
    0 < 2 - P * (1 - 1 / Real.sqrt 2) := by
  have hinv : 0 < 1 / Real.sqrt 2 := by positivity
  have hlt := inv_sqrt_two_lt_one
  nlinarith

lemma limitF12_ratio_lt_one {P : ℝ} (h0 : 0 < P) (h1 : P < 1) :
    (2 - P * (1 + 1 / Real.sqrt 2)) / (2 - P * (1 - 1 / Real.sqrt 2)) < 1 := by
  have hden := limitF12_den_pos h0 h1
  rw [div_lt_one hden]
  have hinv : 0 < 1 / Real.sqrt 2 := by positivity
  nlinarith

lemma limitF12_log_neg {P : ℝ} (h0 : 0 < P) (h1 : P < 1) :
    Real.log ((2 - P * (1 + 1 / Real.sqrt 2)) / (2 - P * (1 - 1 / Real.sqrt 2))) < 0 :=
  Real.log_neg (div_pos (limitF12_num_pos h0 h1) (limitF12_den_pos h0 h1))
    (limitF12_ratio_lt_one h0 h1)

/-- For every `P` strictly between 0 and 1, the limiting 1-2 branch evaluates to a
strictly negative number (the `isFinite` check passes and the negative value is
returned unguarded). -/
lemma limitF12_neg {P : ℝ} (h0 : 0 < P) (h1 : P < 1) : limitF12 P < 0 := by
  unfold limitF12
  have hnum := limitF12_num_pos h0 h1
  have hden := limitF12_den_pos h0 h1
  have hr : 0 < (2 - P * (1 + 1 / Real.sqrt 2)) / (2 - P * (1 - 1 / Real.sqrt 2)) :=
    div_pos hnum hden
  have hlog := limitF12_log_neg h0 h1
  have hPlog : P * Real.log ((2 - P * (1 + 1 / Real.sqrt 2)) /
      (2 - P * (1 - 1 / Real.sqrt 2))) < 0 := mul_neg_of_pos_of_neg h0 hlog
  rw [if_neg]
  · exact div_neg_of_pos_of_neg (by nlinarith [one_lt_sqrt_two]) hPlog
  · push_neg
    exact ⟨hr, ne_of_lt hPlog⟩

/-- Lower bound for the limiting branch at `P = 1/2`: since
`log r ≤ r - 1 = -√2/2 / den ≤ -√2/4`, the returned value `√2 / log r` is at
least `-4`. -/
lemma limitF12_half_ge : -4 ≤ limitF12 (1 / 2) := by
  unfold limitF12
  have h0 : (0 : ℝ) < 1 / 2 := by norm_num
  have h1 : (1 : ℝ) / 2 < 1 := by norm_num
  have hnum := limitF12_num_pos h0 h1
  have hden := limitF12_den_pos h0 h1
  have hs2 : 0 < Real.sqrt 2 := by positivity
  have hs2sq : Real.sqrt 2 * Real.sqrt 2 = 2 := Real.mul_self_sqrt (by norm_num)
  have hr : 0 < (2 - 1 / 2 * (1 + 1 / Real.sqrt 2)) / (2 - 1 / 2 * (1 - 1 / Real.sqrt 2)) :=
    div_pos hnum hden
  have hlog := limitF12_log_neg h0 h1
  -- log r ≤ r - 1 ≤ -√2/4
  have hsub : Real.log ((2 - 1 / 2 * (1 + 1 / Real.sqrt 2)) /
      (2 - 1 / 2 * (1 - 1 / Real.sqrt 2))) ≤
      (2 - 1 / 2 * (1 + 1 / Real.sqrt 2)) / (2 - 1 / 2 * (1 - 1 / Real.sqrt 2)) - 1 :=
    Real.log_le_sub_one_of_pos hr
  have hdle : 2 - 1 / 2 * (1 - 1 / Real.sqrt 2) ≤ 2 := by
    have : 0 ≤ 1 / 2 * (1 - 1 / Real.sqrt 2) := by
      have := inv_sqrt_two_lt_one
      nlinarith
    linarith
  have hrm1 : (2 - 1 / 2 * (1 + 1 / Real.sqrt 2)) / (2 - 1 / 2 * (1 - 1 / Real.sqrt 2)) - 1 ≤
      -(Real.sqrt 2 / 4) := by
    rw [div_sub_one (ne_of_gt hden)]
    have hnumden : 2 - 1 / 2 * (1 + 1 / Real.sqrt 2) - (2 - 1 / 2 * (1 - 1 / Real.sqrt 2)) =
        -(1 / Real.sqrt 2) := by ring
    rw [hnumden]
    rw [div_le_iff hden, neg_mul, neg_le_neg_iff]
    rw [div_eq_mul_inv, div_eq_mul_inv]
    have hinv : Real.sqrt 2 * (Real.sqrt 2)⁻¹ = 1 := mul_inv_cancel₀ (ne_of_gt hs2)
    calc Real.sqrt 2 * 4⁻¹ * (2 - 1 / 2 * (1 - 1 / Real.sqrt 2)) ≤
        Real.sqrt 2 * 4⁻¹ * 2 := by
          apply mul_le_mul_of_nonneg_left hdle (by positivity)
      _ = Real.sqrt 2 * 2⁻¹ := by ring
      _ ≤ 1 * (Real.sqrt 2)⁻¹ := by
          rw [one_mul]
          rw [mul_inv_le_iff₀ (by norm_num)]
          rw [inv_mul_eq_div, le_div_iff hs2]
          nlinarith
      _ = 1 * (Real.sqrt 2)⁻¹ := rfl
  have hlogle : Real.log ((2 - 1 / 2 * (1 + 1 / Real.sqrt 2)) /
      (2 - 1 / 2 * (1 - 1 / Real.sqrt 2))) ≤ -(Real.sqrt 2 / 4) := le_trans hsub hrm1
  have hPlogne : 1 / 2 * Real.log ((2 - 1 / 2 * (1 + 1 / Real.sqrt 2)) /
      (2 - 1 / 2 * (1 - 1 / Real.sqrt 2))) < 0 := by
    apply mul_neg_of_pos_of_neg h0 hlog
  rw [if_neg]
  · set L := Real.log ((2 - 1 / 2 * (1 + 1 / Real.sqrt 2)) /
      (2 - 1 / 2 * (1 - 1 / Real.sqrt 2))) with hL
    -- goal: -4 ≤ √2 * (1 - 1/2) / (1/2 * L) = √2 / L
    have hLneg : L < 0 := hlog
    have hLle : L ≤ -(Real.sqrt 2 / 4) := hlogle
    have hv : Real.sqrt 2 * (1 - 1 / 2) / (1 / 2 * L) = Real.sqrt 2 / L := by
      field_simp
      norm_num
    rw [hv]
    -- -4 ≤ √2 / L  ⟺  √2 ≤ -4 * L  (dividing by negative L flips)
    rw [le_div_iff_of_neg hLneg]
    nlinarith [hs2sq]
  · push_neg
    exact ⟨hr, ne_of_lt hPlogne⟩

/-- Each generalized branch either returns 1 through one of its guards or returns
the computed `F` under the final `F > 0` check, so its value is 1 or positive. -/
lemma generalF_eq_one_or_pos (P R e d : ℝ) :
    generalF P R e d = 1 ∨ 0 < generalF P R e d := by
  simp only [generalF]
  split_ifs with h1 h2 h3 h4
  · exact Or.inl rfl
  · exact Or.inl rfl
  · exact Or.inl rfl
  · exact Or.inr h4
  · exact Or.inl rfl

/-! ## JavaScript truthiness on optional numbers -/

/-- A JS value held as `Option ℝ` is truthy when present and nonzero (validated
inputs are never `NaN`, and a derived value is a real number). -/
def truthy : Option ℝ → Prop
  | none => False
  | some x => x ≠ 0

/-- JS `x || y` on optional numeric values. -/
def jsOr (x y : Option ℝ) : Option ℝ := if truthy x then x else y

/-- The numeric value of an optional JS number; every read in the source is
guarded by a truthiness check, so the default is never observed. -/
def val (x : Option ℝ) : ℝ := x.getD 0

@[simp] lemma truthy_none : ¬ truthy none := fun h => h

@[simp] lemma truthy_some {x : ℝ} : truthy (some x) ↔ x ≠ 0 := Iff.rfl

@[simp] lemma val_some (x : ℝ) : val (some x) = x := rfl

@[simp] lemma val_none : val none = 0 := rfl

/-! ## Heat exchanger solver (source lines 253-516) -/

/-- The helper `computeLMTD` (source lines 292-307): `dt1`/`dt2` per arrangement (parallel
uses inlet-vs-inlet and outlet-vs-outlet; every other arrangement uses the
counter-flow pairing), the near-equality branch *precedes* the nonpositivity
check, and otherwise the log-mean form is returned. -/
def computeLMTD (flowType : FlowType) (Th_in Tc_in Th_out Tc_out : ℝ) :
    Except HXError ℝ :=
  let dt1 := if flowType = .parallel then Th_in - Tc_in else Th_in - Tc_out
  let dt2 := if flowType = .parallel then Th_out - Tc_out else Th_out - Tc_in
  if |dt1 - dt2| < 1e-6 then .ok dt1
  else if dt1 ≤ 0 ∨ dt2 ≤ 0 then .error .invalidTemperatureDifference
  else .ok ((dt1 - dt2) / Real.log (dt1 / dt2))

/-- The helper `computeEffectiveness` (source lines 309-320): null unless both `NTU` and
`Cr` are truthy; counter flow has a near-`Cr = 1` special form; arrangements
other than counter and parallel yield null. -/
def computeEffectiveness (NTU Cr : Option ℝ) (flowType : FlowType) : Option ℝ :=
  if ¬ truthy NTU ∨ ¬ truthy Cr then none
  else
    let n := val NTU
    let c := val Cr
    if flowType = .counter then
      if |c - 1| < 1e-6 then some (n / (1 + n))
      else some ((1 - Real.exp (-n * (1 - c))) / (1 - c * Real.exp (-n * (1 - c))))
    else if flowType = .parallel then
      some ((1 - Real.exp (-n * (1 + c))) / (1 + c))
    else none

/-- One iteration body of `iterateQ`: candidate outlets from the current guess
`q`, their LMTD, the correction factor (computed unless the shell configuration
is `"counter"`/`"parallel"`), and `Q_calc = U * A * lmtd * F` (source lines
334-345). -/
def qStep (flowType : FlowType) (shellConfig : ShellConfig)
    (Th_in Tc_in C_h C_c U A : ℝ) (q : ℝ) : Except HXError ℝ :=
  let Th_out := Th_in - q / C_h
  let Tc_out := Tc_in + q / C_c
  match computeLMTD flowType Th_in Tc_in Th_out Tc_out with
  | .error e => .error e
  | .ok lmtd =>
      let F := if shellConfig ≠ .counter ∧ shellConfig ≠ .parallel then
          calculateCorrectionFactor ((Tc_out - Tc_in) / (Th_in - Tc_in))
            ((Th_in - Th_out) / (Tc_out - Tc_in)) shellConfig
        else 1
      .ok (U * A * lmtd * F)

/-- The `for` loop of `iterateQ` (source lines 333-351): when
`|Q_calc - q| < 0.01` it accepts and returns the current guess `q` (the source's
`return Q`), otherwise it continues from `Q_calc`; an exhausted budget throws the
convergence error. -/
def iterGo (flowType : FlowType) (shellConfig : ShellConfig)
    (Th_in Tc_in C_h C_c U A : ℝ) : ℕ → ℝ → Except HXError ℝ
  | 0, _ => .error .convergenceFailure
  | n + 1, q =>
      match qStep flowType shellConfig Th_in Tc_in C_h C_c U A q with
      | .error e => .error e
      | .ok qc =>
          if |qc - q| < 0.01 then .ok q
          else iterGo flowType shellConfig Th_in Tc_in C_h C_c U A n qc

/-- The function `iterateQ` (source lines 322-352) at its only call site: default budget
`maxIter = 100`, tolerance `tol = 0.01`, starting guess
`C_min * (Th_in - Tc_in) * 0.5` with `C_min` captured from the solver scope. -/
def iterateQ (flowType : FlowType) (shellConfig : ShellConfig)
    (Th_in Tc_in C_h C_c U A C_min : ℝ) : Except HXError ℝ :=
  iterGo flowType shellConfig Th_in Tc_in C_h C_c U A 100
    (C_min * (Th_in - Tc_in) * 0.5)

/-- Result-map update `results.p = v`. -/
def upd (m : Param → Option ℝ) (p : Param) (v : ℝ) : Param → Option ℝ :=
  fun q => if q = p then some v else m q

/-- Duty step of `calculateInterdependentUnknowns` (source lines 373-384):
`Q` from the hot-side balance when `Q` is requested and the hot side is
available, else from the cold side. -/
def interdepQ (unknowns : List Param) (known : Param → Option ℝ)
    (C_h C_c : Option ℝ) (results : Param → Option ℝ) : Param → Option ℝ :=
  if Param.Q ∈ unknowns ∧ truthy (known .Th_in) ∧ truthy (known .Th_out) ∧
      truthy C_h then
    upd results .Q (val C_h * (val (known .Th_in) - val (known .Th_out)))
  else if Param.Q ∈ unknowns ∧ truthy (known .Tc_in) ∧ truthy (known .Tc_out) ∧
      truthy C_c then
    upd results .Q (val C_c * (val (known .Tc_out) - val (known .Tc_in)))
  else results

/-- Outlet `Tc_out` from `Q` (source lines 387-389). -/
def interdepTcOut (unknowns : List Param) (known : Param → Option ℝ)
    (C_c : Option ℝ) (results : Param → Option ℝ) : Param → Option ℝ :=
  if Param.Tc_out ∈ unknowns ∧ truthy (results .Q) ∧ truthy (known .Tc_in) ∧
      truthy C_c then
    upd results .Tc_out (val (known .Tc_in) + val (results .Q) / val C_c)
  else results

/-- Outlet `Th_out` from `Q` (source lines 392-394). -/
def interdepThOut (unknowns : List Param) (known : Param → Option ℝ)
    (C_h : Option ℝ) (results : Param → Option ℝ) : Param → Option ℝ :=
  if Param.Th_out ∈ unknowns ∧ truthy (results .Q) ∧ truthy (known .Th_in) ∧
      truthy C_h then
    upd results .Th_out (val (known .Th_in) - val (results .Q) / val C_h)
  else results

/-- Area `A` from `Q`, `U` and the LMTD of `known.Th_in`, `known.Tc_in`,
`known.Th_out`, `results.Tc_out` (source lines 397-417), throwing when that
LMTD is not positive. -/
def interdepA (flowType : FlowType) (unknowns : List Param)
    (known : Param → Option ℝ) (results : Param → Option ℝ) :
    Except HXError (Param → Option ℝ) :=
  if Param.A ∈ unknowns ∧ truthy (results .Q) ∧ truthy (known .U) ∧
      truthy (known .Th_in) ∧ truthy (known .Tc_in) ∧ truthy (known .Th_out) ∧
      truthy (results .Tc_out) then
    match computeLMTD flowType (val (known .Th_in)) (val (known .Tc_in))
        (val (known .Th_out)) (val (results .Tc_out)) with
    | .error e => .error e
    | .ok lmtd =>
        if 0 < lmtd then
          .ok (upd results .A (val (results .Q) / (val (known .U) * lmtd)))
        else .error .aNonpositiveLMTD
  else .ok results

/-- The pass `calculateInterdependentUnknowns` (source lines 371-418), acting on the
result map initialised from the knowns: the four steps in source order. -/
def calcInterdep (flowType : FlowType) (unknowns : List Param)
    (known : Param → Option ℝ) (C_h C_c : Option ℝ)
    (results : Param → Option ℝ) : Except HXError (Param → Option ℝ) :=
  interdepA flowType unknowns known
    (interdepThOut unknowns known C_h
      (interdepTcOut unknowns known C_c
        (interdepQ unknowns known C_h C_c results)))

/-- The record returned by `solveHeatExchanger`: the parameter-to-value map plus
the performance fields assigned by its final section.  (The source returns one
plain object; the parameter entries and the extra fields are separated here.) -/
structure HXOut where
  vals : Param → Option ℝ
  epsilon : Option ℝ
  NTU : Option ℝ
  LMTD_uncorrected : Option ℝ
  correctionFactor : Option ℝ
  LMTD : Option ℝ

/-- The validated known map built from the declared knowns (source lines
268-282): a parameter's supplied value when declared known, absent otherwise. -/
def mkKnown (siInputs : Param → Option ℝ) (knowns : List Param) :
    Param → Option ℝ :=
  fun p => if p ∈ knowns then siInputs p else none

/-- Hot capacity rate `C_h = known.m_h && known.cp_h ? known.m_h * known.cp_h : null`
(source line 286). -/
def hotCapacity (known : Param → Option ℝ) : Option ℝ :=
  if truthy (known .m_h) ∧ truthy (known .cp_h) then
    some (val (known .m_h) * val (known .cp_h)) else none

/-- Cold capacity rate `C_c` (source line 287). -/
def coldCapacity (known : Param → Option ℝ) : Option ℝ :=
  if truthy (known .m_c) ∧ truthy (known .cp_c) then
    some (val (known .m_c) * val (known .cp_c)) else none

/-- Minimum capacity rate `C_min` (source line 288). -/
def minCapacity (C_h C_c : Option ℝ) : Option ℝ :=
  if truthy C_h ∧ truthy C_c then some (min (val C_h) (val C_c)) else none

/-- Maximum capacity rate `C_max` (source line 289). -/
def maxCapacity (C_h C_c : Option ℝ) : Option ℝ :=
  if truthy C_h ∧ truthy C_c then some (max (val C_h) (val C_c)) else none

/-- Capacity ratio `Cr = C_min && C_max ? C_min / C_max : null` (source line 290). -/
def capacityRatio (C_min C_max : Option ℝ) : Option ℝ :=
  if truthy C_min ∧ truthy C_max then some (val C_min / val C_max) else none

/-- The both-outlets-unknown special case (source lines 422-453): requires
`Th_out` and `Tc_out` unknown with `A` and `Q` not requested; with inlets,
capacity rates, `U` and `A` available it computes `NTU`, the closed-form
effectiveness, and on a truthy effectiveness assigns `Q` and both outlets;
otherwise, for a genuine shell configuration, it runs the bounded iteration;
with the data unavailable it throws. -/
def bothOutletsStep (flowType : FlowType) (shellConfig : ShellConfig)
    (unknowns : List Param) (known : Param → Option ℝ)
    (C_h C_c C_min Cr : Option ℝ) (r0 : Param → Option ℝ) :
    Except HXError (Param → Option ℝ) :=
  if Param.Th_out ∈ unknowns ∧ Param.Tc_out ∈ unknowns ∧
      Param.A ∉ unknowns ∧ Param.Q ∉ unknowns then
    if truthy (known .Th_in) ∧ truthy (known .Tc_in) ∧ truthy C_h ∧
        truthy C_c ∧ truthy (known .U) ∧ truthy (known .A) then
      let NTU0 := val (known .U) * val (known .A) / val C_min
      let eps := computeEffectiveness (some NTU0) Cr flowType
      if truthy eps then
        let Qe := val eps * val C_min *
          (val (known .Th_in) - val (known .Tc_in))
        .ok (upd (upd (upd r0 .Q Qe)
          .Th_out (val (known .Th_in) - Qe / val C_h))
          .Tc_out (val (known .Tc_in) + Qe / val C_c))
      else if shellConfig ≠ .counter ∧ shellConfig ≠ .parallel then
        match iterateQ flowType shellConfig (val (known .Th_in))
            (val (known .Tc_in)) (val C_h) (val C_c) (val (known .U))
            (val (known .A)) (val C_min) with
        | .error e => .error e
        | .ok Qi =>
          .ok (upd (upd (upd r0 .Q Qi)
            .Th_out (val (known .Th_in) - Qi / val C_h))
            .Tc_out (val (known .Tc_in) + Qi / val C_c))
      else .ok r0
    else .error .insufficientForBothOutlets
  else .ok r0

/-- The LMTD / correction-factor field computation of the solver's final
section (source lines 482-500): with all four final temperatures truthy it
computes the uncorrected LMTD and, for a genuine shell configuration, the
correction factor from `P` and `R`; the three components returned are
`LMTD_uncorrected`, `correctionFactor` and `LMTD`. -/
def lmtdFields (flowType : FlowType) (shellConfig : ShellConfig)
    (finalTh_in finalTc_in finalTh_out finalTc_out : Option ℝ) :
    Except HXError (Option ℝ × Option ℝ × Option ℝ) :=
  if truthy finalTh_in ∧ truthy finalTc_in ∧ truthy finalTh_out ∧
      truthy finalTc_out then
    match computeLMTD flowType (val finalTh_in) (val finalTc_in)
        (val finalTh_out) (val finalTc_out) with
    | .error e => .error e
    | .ok L =>
      if shellConfig ≠ .counter ∧ shellConfig ≠ .parallel then
        let Pv := (val finalTc_out - val finalTc_in) /
          (val finalTh_in - val finalTc_in)
        let Rv := (val finalTh_in - val finalTh_out) /
          (val finalTc_out - val finalTc_in)
        let cf := calculateCorrectionFactor Pv Rv shellConfig
        .ok (some L, some cf, some (cf * L))
      else .ok (some L, some (1 : ℝ), some L)
  else .ok (none, none, none)

/-- The post-hoc physical validity check (source lines 502-513): parallel flow
requires `Th_out ≥ Tc_out`, counter flow requires `Th_out ≥ Tc_in`, each
violation throwing `PhysicallyInvalidResultError`. -/
def validityCheck (flowType : FlowType)
    (finalTh_in finalTc_in finalTh_out finalTc_out : Option ℝ) (res : HXOut) :
    Except HXError HXOut :=
  if truthy finalTh_out ∧ truthy finalTc_out ∧ truthy finalTh_in ∧
      truthy finalTc_in then
    if flowType = .parallel ∧ val finalTh_out < val finalTc_out then
      .error .physicallyInvalidResult
    else if flowType = .counter ∧ val finalTh_out < val finalTc_in then
      .error .physicallyInvalidResult
    else .ok res
  else .ok res

/-- The final section of the solver (source lines 455-515): the fallback chains
for the `final*` values, the `epsilon` and `NTU` fields, the LMTD /
correction-factor fields, and the post-hoc physical validity check. -/
def finalize (flowType : FlowType) (shellConfig : ShellConfig)
    (known : Param → Option ℝ) (C_h C_c C_min : Option ℝ)
    (r : Param → Option ℝ) : Except HXError HXOut :=
  let finalQ := jsOr (r .Q) (jsOr (known .Q)
    (if truthy (known .Th_in) ∧ truthy (known .Th_out) ∧ truthy C_h then
      some (val C_h * (val (known .Th_in) - val (known .Th_out)))
    else if truthy (known .Tc_in) ∧ truthy (known .Tc_out) ∧ truthy C_c then
      some (val C_c * (val (known .Tc_out) - val (known .Tc_in)))
    else none))
  let finalTh_in := jsOr (known .Th_in)
    (if truthy (known .Tc_out) ∧ truthy (r .Tc_out) then
      some (val (known .Tc_out) + 20) else none)
  let finalTc_in := jsOr (known .Tc_in)
    (if truthy (known .Th_out) ∧ truthy (r .Th_out) then
      some (val (known .Th_out) - 20) else none)
  let finalTh_out := jsOr (r .Th_out) (known .Th_out)
  let finalTc_out := jsOr (r .Tc_out) (known .Tc_out)
  let finalA := jsOr (r .A) (known .A)
  let finalU := known .U
  let eps : Option ℝ :=
    if truthy finalQ ∧ truthy C_min ∧ truthy finalTh_in ∧ truthy finalTc_in then
      some (val finalQ / (val C_min * (val finalTh_in - val finalTc_in)))
    else none
  let ntu : Option ℝ :=
    if truthy finalU ∧ truthy finalA ∧ truthy C_min then
      some (val finalU * val finalA / val C_min)
    else none
  match lmtdFields flowType shellConfig finalTh_in finalTc_in finalTh_out
      finalTc_out with
  | .error e => .error e
  | .ok (Lu, cf, Lc) =>
    validityCheck flowType finalTh_in finalTc_in finalTh_out finalTc_out
      ⟨r, eps, ntu, Lu, cf, Lc⟩

/-- The solver `solveHeatExchanger` (source lines 253-516): precondition checks in source
order, validation of each declared known (a missing / non-numeric value is
`none`), capacity rates, the interdependent-unknowns pass, the
both-outlets-unknown special case, and the final performance fields and
post-hoc physical validity check. -/
def solveHeatExchanger (siInputs : Param → Option ℝ) (knowns unknowns : List Param)
    (flowType : FlowType) (shellConfig : ShellConfig) : Except HXError HXOut :=
  if knowns = [] then .error .insufficientKnowns
  else if unknowns = [] then .error .noUnknownsSelected
  else
    match knowns.find? (fun p => (siInputs p).isNone) with
    | some p => .error (.missingValue p)
    | none =>
      let known := mkKnown siInputs knowns
      let C_h := hotCapacity known
      let C_c := coldCapacity known
      let C_min := minCapacity C_h C_c
      let C_max := maxCapacity C_h C_c
      let Cr := capacityRatio C_min C_max
      match calcInterdep flowType unknowns known C_h C_c known with
      | .error e => .error e
      | .ok r0 =>
        match bothOutletsStep flowType shellConfig unknowns known C_h C_c
            C_min Cr r0 with
        | .error e => .error e
        | .ok r => finalize flowType shellConfig known C_h C_c C_min r

/-! Concrete input maps for the analysis scenarios. -/

/-- Supplied-duty scenario: knowns `Q`, `m_h`, `cp_h`, `m_c`, `cp_c`, `Th_in`,
`Tc_in` with `Q = 600`, unit capacity rates, inlets 80 and 20. -/
def suppliedDutyInput : Param → Option ℝ := fun p => match p with
  | .Q => some 600 | .m_h => some 1 | .cp_h => some 1 | .m_c => some 1
  | .cp_c => some 1 | .Th_in => some 80 | .Tc_in => some 20 | _ => none

/-- Both-outlets scenario with a supplied duty `Q = 999` alongside inlets, unit
capacity rates, `U = A = 1`. -/
def overwriteQInput : Param → Option ℝ := fun p => match p with
  | .Th_in => some 80 | .Tc_in => some 20 | .m_h => some 1 | .cp_h => some 1
  | .m_c => some 1 | .cp_c => some 1 | .U => some 1 | .A => some 1
  | .Q => some 999 | _ => none

/-- Both-outlets scenario without a supplied duty. -/
def bothOutletsInput : Param → Option ℝ := fun p => match p with
  | .Th_in => some 80 | .Tc_in => some 20 | .m_h => some 1 | .cp_h => some 1
  | .m_c => some 1 | .cp_c => some 1 | .U => some 1 | .A => some 1 | _ => none

/-- The four boundary temperatures only. -/
def tempsInput (a b c d : ℝ) : Param → Option ℝ := fun p => match p with
  | .Th_in => some a | .Tc_in => some b | .Th_out => some c | .Tc_out => some d
  | _ => none

/-- A single known parameter. -/
def singleInput (p₀ : Param) (x : ℝ) : Param → Option ℝ :=
  fun p => if p = p₀ then some x else none

/-! ## Thermal resistance network calculator (source lines 1511-1651)

The `calculate` function of the conduction page: composite wall or pipe, SI or
Imperial display units, optional inside/outside convection.  The
interface-temperature chart data is presentation output and is omitted; the
numeric outputs (total resistance, duty, overall coefficient, critical radius,
per-element resistances) are embedded. -/

/-- Geometry selector: `"Composite Wall"` or `"Pipe"`. -/
inductive RGeom
  | wall | pipe
deriving DecidableEq

/-- Unit system selector: `"SI"` or `"Imperial"`. -/
inductive RUnits
  | SI | imperial
deriving DecidableEq

/-- Temperature unit in SI mode: `"C"` or `"K"`. -/
inductive TempUnit
  | celsius | kelvin
deriving DecidableEq

/-- SI length unit selector: `"m"`, `"cm"` or `"mm"`. -/
inductive LenUnit
  | m | cm | mm
deriving DecidableEq

/-- A layer entry: thickness (planar), outer radius (cylindrical) and
conductivity; the display name is presentation data and is omitted. -/
structure RLayer where
  thickness : ℝ
  outerRadius : ℝ
  k : ℝ

/-- The state read by `calculate`. -/
structure RInput where
  config : RGeom
  units : RUnits
  tempUnit : TempUnit
  siLengthUnit : LenUnit
  area : ℝ
  pipeLength : ℝ
  innerRadius : ℝ
  hInside : ℝ
  hOutside : ℝ
  tHot : ℝ
  tCold : ℝ
  layers : List RLayer

/-- Layer resistances in order (source lines 1576-1596): planar layers use
`thicknessSI / (kSI * areaCalc)`; cylindrical layers use
`ln(r_outSI / r_inSI) / (2π kSI L_SI)`, the inner radius being the network's
inner radius for the first layer and the previous layer's outer radius after
that (tracked here by the `prevR` accumulator). -/
def layerRs (inp : RInput) (lengthFactor areaCalc : ℝ) :
    ℝ → List RLayer → List ℝ
  | _, [] => []
  | prevR, l :: ls =>
      let kSI := l.k * (if inp.units = .imperial then 1.7307 else 1)
      let r :=
        if inp.config = .wall then l.thickness * lengthFactor / (kSI * areaCalc)
        else Real.log (l.outerRadius * lengthFactor / (prevR * lengthFactor)) /
          (2 * Real.pi * kSI * (inp.pipeLength * lengthFactor))
      r :: layerRs inp lengthFactor areaCalc l.outerRadius ls

/-- The numeric outputs of `calculate`. -/
structure ROut where
  totalR : ℝ
  Q : ℝ
  U : ℝ
  criticalRadius : ℝ
  layerResistances : List ℝ

/-- The function `calculate` (source lines 1511-1651): length/area/temperature normalisation,
critical radius for the pipe geometry (reported in mm when the SI length unit is
mm), inside-convection resistance when `hInside > 0`, the ordered layer
resistances, outside-convection resistance when `hOutside > 0` (using the
outermost cylindrical area for pipes), and the display conversions of `totalR`,
`Q` and `U` in Imperial mode. -/
def calculate (inp : RInput) : ROut :=
  let lengthFactor : ℝ :=
    match inp.siLengthUnit with | .m => 1 | .cm => 0.01 | .mm => 0.001
  let areaCalc :=
    if inp.config = .wall then
      if inp.units = .imperial then inp.area * 0.092903
      else inp.area * (lengthFactor * lengthFactor)
    else 2 * Real.pi * inp.innerRadius * lengthFactor * inp.pipeLength *
      lengthFactor * (if inp.units = .imperial then 0.3048 else 1)
  let tHotSI :=
    if inp.units = .SI then
      (if inp.tempUnit = .kelvin then inp.tHot - 273.15 else inp.tHot)
    else (inp.tHot - 32) * (5 / 9)
  let tColdSI :=
    if inp.units = .SI then
      (if inp.tempUnit = .kelvin then inp.tCold - 273.15 else inp.tCold)
    else (inp.tCold - 32) * (5 / 9)
  let tempDiff := tHotSI - tColdSI
  let kFactor : ℝ := if inp.units = .imperial then 1.7307 else 1
  let hFactor : ℝ := if inp.units = .imperial then 5.6783 else 1
  -- `layers[layers.length - 1]` is guarded by `layers.length > 0`
  let criticalRadius :=
    if inp.config = .pipe ∧ 0 < inp.hOutside ∧ inp.layers ≠ [] then
      ((inp.layers.getLast?.map RLayer.k).getD 0 * kFactor /
          (inp.hOutside * hFactor)) *
        (if inp.units = .SI ∧ inp.siLengthUnit = .mm then 1000 else 1)
    else 0
  let insideRs :=
    if 0 < inp.hInside then [1 / (inp.hInside * hFactor * areaCalc)] else []
  let lrs := layerRs inp lengthFactor areaCalc inp.innerRadius inp.layers
  let outsideRs :=
    if 0 < inp.hOutside then
      let outerArea :=
        if inp.config = .wall then areaCalc
        else 2 * Real.pi * ((inp.layers.getLast?.map RLayer.outerRadius).getD 0) *
          lengthFactor * inp.pipeLength * lengthFactor
      [1 / (inp.hOutside * hFactor * outerArea)]
    else []
  let rs := insideRs ++ lrs ++ outsideRs
  let totalR := rs.sum
  let Q := tempDiff / totalR
  let U := 1 / (totalR * areaCalc)
  { totalR := if inp.units = .imperial then totalR * 5.6783 else totalR
    Q := if inp.units = .imperial then Q / 0.293 else Q
    U := if inp.units = .imperial then U / 5.6783 else U
    criticalRadius := criticalRadius
    layerResistances := rs }

end

/-! ## Numeric bounds for the concrete LMTD scenario -/

lemma log_four_thirds_lb : (1000 : ℝ) / 3477 ≤ Real.log (4 / 3) := by
  rw [Real.le_log_iff_exp_le (by norm_num : (0 : ℝ) < 4 / 3)]
  have hb := Real.exp_bound' (x := 1000 / 3477) (by norm_num) (by norm_num)
    (n := 5) (by norm_num)
  refine le_trans hb ?_
  rw [Finset.sum_range_succ, Finset.sum_range_succ, Finset.sum_range_succ,
    Finset.sum_range_succ, Finset.sum_range_succ, Finset.sum_range_zero]
  norm_num [Nat.factorial]

lemma log_four_thirds_ub : Real.log (4 / 3) ≤ 40 / 139 := by
  rw [Real.log_le_iff_le_exp (by norm_num : (0 : ℝ) < 4 / 3)]
  have hb := Real.sum_le_exp_of_nonneg (x := 40 / 139) (by norm_num) 5
  refine le_trans ?_ hb
  rw [Finset.sum_range_succ, Finset.sum_range_succ, Finset.sum_range_succ,
    Finset.sum_range_succ, Finset.sum_range_succ, Finset.sum_range_zero]
  norm_num [Nat.factorial]

lemma lmtd_value_bound : |10 / Real.log (4 / 3) - 34.76| ≤ 0.01 := by
  have hlb := log_four_thirds_lb
  have hub := log_four_thirds_ub
  have hpos : 0 < Real.log (4 / 3) := lt_of_lt_of_le (by norm_num) hlb
  rw [abs_le]
  constructor
  · have h1 : (34.75 : ℝ) ≤ 10 / Real.log (4 / 3) := by
      rw [le_div_iff hpos]; nlinarith
    linarith
  · have h2 : 10 / Real.log (4 / 3) ≤ 34.77 := by
      rw [div_le_iff hpos]; nlinarith
    linarith

/-- C6: the LMTD computation uses `dt1 = Th_in - Tc_out`, `dt2 = Th_out - Tc_in`
for counter flow and `dt1 = Th_in - Tc_in`, `dt2 = Th_out - Tc_out` for parallel
flow, returns `dt1` when `|dt1 - dt2| < 1e-6`, and otherwise (for positive
differences) returns `(dt1 - dt2) / ln(dt1 / dt2)`; in particular for
`Th_in = 80`, `Tc_in = 20`, `Th_out = 50`, `Tc_out = 40` in counter flow it
returns `10 / ln(4/3) = 34.76` within `±0.01`. -/
theorem C6_computeLMTD :
    (∀ a b c d : ℝ, |(a - d) - (c - b)| < 1e-6 →
      computeLMTD .counter a b c d = .ok (a - d)) ∧
    (∀ a b c d : ℝ, |(a - b) - (c - d)| < 1e-6 →
      computeLMTD .parallel a b c d = .ok (a - b)) ∧
    (∀ a b c d : ℝ, 1e-6 ≤ |(a - d) - (c - b)| → 0 < a - d → 0 < c - b →
      computeLMTD .counter a b c d =
        .ok (((a - d) - (c - b)) / Real.log ((a - d) / (c - b)))) ∧
    (∀ a b c d : ℝ, 1e-6 ≤ |(a - b) - (c - d)| → 0 < a - b → 0 < c - d →
      computeLMTD .parallel a b c d =
        .ok (((a - b) - (c - d)) / Real.log ((a - b) / (c - d)))) ∧
    computeLMTD .counter 80 20 50 40 = .ok (10 / Real.log (4 / 3)) ∧
    |10 / Real.log (4 / 3) - 34.76| ≤ 0.01 := by
  refine ⟨?_, ?_, ?_, ?_, ?_, lmtd_value_bound⟩
  · intro a b c d h
    simp only [computeLMTD, reduceCtorEq, if_false]
    rw [if_pos h]
  · intro a b c d h
    simp only [computeLMTD, if_true, if_pos rfl]
    rw [if_pos h]
  · intro a b c d h h1 h2
    simp only [computeLMTD, reduceCtorEq, if_false]
    rw [if_neg (not_lt.mpr h), if_neg (by push_neg; exact ⟨h1, h2⟩)]
  · intro a b c d h h1 h2
    simp only [computeLMTD, if_true, if_pos rfl]
    rw [if_neg (not_lt.mpr h), if_neg (by push_neg; exact ⟨h1, h2⟩)]
  · simp only [computeLMTD, reduceCtorEq, if_false]
    rw [if_neg (by norm_num), if_neg (by norm_num)]
    norm_num

/-- C6 witness: the implication conjuncts of `C6_computeLMTD` instantiated at
concrete inputs: the near-equality branch at `(100, 40, 90, 30)` (counter) and
the log-mean branch at `(80, 20, 50, 40)` (counter). -/
theorem C6_computeLMTD_witness :
    computeLMTD .counter 100 30 90 40 = .ok 60 ∧
    computeLMTD .counter 80 20 50 40 = .ok (10 / Real.log (4 / 3)) := by
  constructor
  · have h := C6_computeLMTD.1 100 30 90 40 (by norm_num)
    norm_num at h
    exact h
  · have h := C6_computeLMTD.2.2.1 80 20 50 40 (by norm_num) (by norm_num)
      (by norm_num)
    rw [h]
    norm_num

/-- C5 counterexample: in parallel flow with `Th_in = 0`, `Tc_in = 5`,
`Th_out = 10`, `Tc_out = 15` both `dt1` and `dt2` equal `-5 ≤ 0`, yet
`computeLMTD` returns `ok (-5)` instead of failing: the near-equality branch
precedes the nonpositivity check. -/
theorem C5_counterexample :
    computeLMTD .parallel 0 5 10 15 = .ok (-5) ∧ ((0 : ℝ) - 5 ≤ 0) := by
  constructor
  · simp only [computeLMTD, if_true, if_pos rfl]
    rw [if_pos (by norm_num)]
    norm_num
  · norm_num

/-- C5 amended: when `dt1 ≤ 0` or `dt2 ≤ 0` (taken per the declared arrangement)
and additionally the near-equality branch does not fire (`|dt1 - dt2| ≥ 1e-6`),
the LMTD computation fails with `InvalidTemperatureDifferenceError`. -/
theorem C5_amended (flow : FlowType) (a b c d : ℝ)
    (hne : 1e-6 ≤ |(if flow = .parallel then a - b else a - d) -
      (if flow = .parallel then c - d else c - b)|)
    (hnp : (if flow = .parallel then a - b else a - d) ≤ 0 ∨
      (if flow = .parallel then c - d else c - b) ≤ 0) :
    computeLMTD flow a b c d = .error .invalidTemperatureDifference := by
  simp only [computeLMTD]
  rw [if_neg (not_lt.mpr hne), if_pos hnp]

/-- C5 amended witness: parallel flow at `(80, 20, 30, 40)` has `dt1 = 60`,
`dt2 = -10` and fails with the invalid-temperature-difference error. -/
theorem C5_amended_witness :
    computeLMTD .parallel 80 20 30 40 = .error .invalidTemperatureDifference :=
  C5_amended .parallel 80 20 30 40 (by norm_num) (by norm_num)

/-- C1: at `P = 0.5`, `R = 1` the 1-2 configuration limiting branch returns a
strictly negative value (`√2·(1-P) / (P·ln((2-P(1+1/√2))/(2-P(1-1/√2)))) ≈ -2.94`,
the log argument being < 1), not a value in `(0, 1]`: the code's limiting
expression contradicts the spec's stated range, and unlike the sibling branches
it omits the `F > 0` guard. -/
theorem C1_limiting_branch_negative :
    calculateCorrectionFactor (1 / 2) 1 .c12 < 0 := by
  have h : calculateCorrectionFactor (1 / 2) 1 .c12 = limitF12 (1 / 2) := by
    simp only [calculateCorrectionFactor]
    rw [if_neg (by norm_num)]
    rw [if_pos (by norm_num)]
  rw [h]
  exact limitF12_neg (by norm_num) (by norm_num)

/-- C7 counterexample: at `P = 0.6`, `R = 1`, configuration 1-2, the intermediate
`F` is non-positive, yet the function returns it unchanged instead of the claimed
fallback `F = 1`: the limiting branch checks only finiteness. -/
theorem C7_counterexample :
    calculateCorrectionFactor (3 / 5) 1 .c12 < 0 ∧
    calculateCorrectionFactor (3 / 5) 1 .c12 ≠ 1 := by
  have h : calculateCorrectionFactor (3 / 5) 1 .c12 = limitF12 (3 / 5) := by
    simp only [calculateCorrectionFactor]
    rw [if_neg (by norm_num)]
    rw [if_pos (by norm_num)]
  have hneg : calculateCorrectionFactor (3 / 5) 1 .c12 < 0 := by
    rw [h]; exact limitF12_neg (by norm_num) (by norm_num)
  exact ⟨hneg, by intro h1; rw [h1] at hneg; norm_num at hneg⟩

/-- C7 amended: the correction-factor calculator (a total function: it never
raises) returns 1 on the domain guard `P ≤ 0 ∨ P ≥ 1 ∨ R ≤ 0` and for the
counter/parallel configurations; for the 1-4 and 1-6 configurations, and for the
1-2 and 2-4 configurations away from the limiting case (`|R - 1| ≥ 1e-6`), every
guarded intermediate failure yields 1 and the returned value is 1 or positive.
(The `|R - 1| < 1e-6` limiting branches of 1-2 and 2-4 check only finiteness and
can return a non-positive value; see the counterexample.) -/
theorem C7_amended :
    (∀ (P R : ℝ) (cfg : ShellConfig), P ≤ 0 ∨ 1 ≤ P ∨ R ≤ 0 →
      calculateCorrectionFactor P R cfg = 1) ∧
    (∀ P R : ℝ, calculateCorrectionFactor P R .counter = 1 ∧
      calculateCorrectionFactor P R .parallel = 1) ∧
    (∀ P R : ℝ, calculateCorrectionFactor P R .c14 = 1 ∨
      0 < calculateCorrectionFactor P R .c14) ∧
    (∀ P R : ℝ, calculateCorrectionFactor P R .c16 = 1 ∨
      0 < calculateCorrectionFactor P R .c16) ∧
    (∀ P R : ℝ, 1e-6 ≤ |R - 1| → (calculateCorrectionFactor P R .c12 = 1 ∨
      0 < calculateCorrectionFactor P R .c12)) ∧
    (∀ P R : ℝ, 1e-6 ≤ |R - 1| → (calculateCorrectionFactor P R .c24 = 1 ∨
      0 < calculateCorrectionFactor P R .c24)) := by
  refine ⟨?_, ?_, ?_, ?_, ?_, ?_⟩
  · intro P R cfg h
    simp only [calculateCorrectionFactor]
    rw [if_pos h]
  · intro P R
    constructor <;> · simp only [calculateCorrectionFactor]; split_ifs <;> rfl
  · intro P R
    simp only [calculateCorrectionFactor]
    split_ifs with h
    · exact Or.inl rfl
    · exact generalF_eq_one_or_pos P R (1 / 4) 2
  · intro P R
    simp only [calculateCorrectionFactor]
    split_ifs with h
    · exact Or.inl rfl
    · exact generalF_eq_one_or_pos P R (1 / 6) 3
  · intro P R hR
    simp only [calculateCorrectionFactor]
    split_ifs with h1 h2
    · exact Or.inl rfl
    · exact absurd h2 (not_lt.mpr hR)
    · exact generalF_eq_one_or_pos P R (1 / 2) 1
  · intro P R hR
    simp only [calculateCorrectionFactor]
    split_ifs with h1 h2 h3
    · exact Or.inl rfl
    · -- recursion into the full 1-2 function (the domain guard was already split)
      simp only [corrF12]
      split_ifs with h4
      · exact absurd h4 (not_lt.mpr hR)
      · exact generalF_eq_one_or_pos P R (1 / 2) 1
    · exact absurd h3 (not_lt.mpr hR)
    · exact generalF_eq_one_or_pos P R (1 / 4) 1

/-- C7 amended witness: the guarded conjuncts instantiated concretely: the
domain guard at `P = 0`, and the away-from-limiting 1-2 case at `R = 2`. -/
theorem C7_amended_witness :
    calculateCorrectionFactor 0 1 .c12 = 1 ∧
    (calculateCorrectionFactor (1 / 2) 2 .c12 = 1 ∨
      0 < calculateCorrectionFactor (1 / 2) 2 .c12) :=
  ⟨C7_amended.1 0 1 .c12 (Or.inl le_rfl),
    C7_amended.2.2.2.2.1 (1 / 2) 2 (by norm_num)⟩

/-! ## C8: composite wall with no convection -/

lemma layerRs_wall_SI (inp : RInput) (hcfg : inp.config = .wall)
    (hu : inp.units = .SI) (areaCalc : ℝ) :
    ∀ (prevR : ℝ) (ls : List RLayer),
      layerRs inp 1 areaCalc prevR ls =
        ls.map (fun l => l.thickness / (l.k * areaCalc)) := by
  intro prevR ls
  induction ls generalizing prevR with
  | nil => rfl
  | cons l ls ih =>
      simp only [layerRs, hcfg, hu, List.map_cons, ih, reduceCtorEq, if_false,
        if_true, mul_one, List.cons.injEq, and_true]

/-- C8: for a planar (composite wall) network in SI units (length unit m) with
both convection coefficients zero, the total resistance is the sum of the
per-layer terms `thickness / (k * A)` with no convection terms added, and
`Q = (tHot - tCold) / totalR` (the temperature offset cancels in the
difference, so this holds for both °C and K input). -/
theorem C8_wall_no_convection (inp : RInput) (hcfg : inp.config = .wall)
    (hu : inp.units = .SI) (hlen : inp.siLengthUnit = .m)
    (hin : inp.hInside = 0) (hout : inp.hOutside = 0) :
    (calculate inp).totalR =
      (inp.layers.map (fun l => l.thickness / (l.k * inp.area))).sum ∧
    (calculate inp).Q = (inp.tHot - inp.tCold) /
      (inp.layers.map (fun l => l.thickness / (l.k * inp.area))).sum := by
  have harea : inp.area * ((1 : ℝ) * 1) = inp.area := by ring
  simp only [calculate, hcfg, hu, hlen, hin, hout, reduceCtorEq, if_false,
    if_true, lt_self_iff_false, List.nil_append, List.append_nil, harea,
    layerRs_wall_SI inp hcfg hu]
  rcases htu : inp.tempUnit with _ | _
  · refine ⟨trivial, ?_⟩
    rw [if_neg (by simp), if_neg (by simp)]
  · refine ⟨trivial, ?_⟩
    rw [if_pos rfl, if_pos rfl, show inp.tHot - 273.15 - (inp.tCold - 273.15) =
      inp.tHot - inp.tCold from by ring]

/-- C8 witness: one layer of thickness 0.2 m and conductivity 1 W/m·K on an area
of 10 m², hot side 100 °C, cold side 0 °C, no convection: `totalR = 0.02 K/W`
and `Q = 5000 W`. -/
theorem C8_witness :
    (calculate { config := .wall
                 units := .SI
                 tempUnit := .celsius
                 siLengthUnit := .m
                 area := 10
                 pipeLength := 0
                 innerRadius := 0
                 hInside := 0
                 hOutside := 0
                 tHot := 100
                 tCold := 0
                 layers := [{ thickness := 0.2, outerRadius := 0, k := 1 }] }).totalR = 0.02 ∧
    (calculate { config := .wall
                 units := .SI
                 tempUnit := .celsius
                 siLengthUnit := .m
                 area := 10
                 pipeLength := 0
                 innerRadius := 0
                 hInside := 0
                 hOutside := 0
                 tHot := 100
                 tCold := 0
                 layers := [{ thickness := 0.2, outerRadius := 0, k := 1 }] }).Q = 5000 := by
  have h := C8_wall_no_convection { config := .wall
                                    units := .SI
                                    tempUnit := .celsius
                                    siLengthUnit := .m
                                    area := 10
                                    pipeLength := 0
                                    innerRadius := 0
                                    hInside := 0
                                    hOutside := 0
                                    tHot := 100
                                    tCold := 0
                                    layers := [{ thickness := 0.2, outerRadius := 0, k := 1 }] }
    rfl rfl rfl rfl rfl
  norm_num at h ⊢
  exact h

/-! ## C4: the iterative shell-and-tube duty loop -/

lemma corrF_half_one_eq :
    calculateCorrectionFactor (1 / 2) 1 .c12 = limitF12 (1 / 2) := by
  simp only [calculateCorrectionFactor]
  rw [if_neg (by norm_num), if_pos (by norm_num)]

/-- The first `iterateQ` step at the C4 scenario: hot/cold capacity rates 1,
inlets 0.002 and 0, U = A = 1, guess 0.001; the candidate outlets are both
0.001, the LMTD near-equality branch gives 0.001, and the correction factor
is the (negative) limiting 1-2 value at `P = 1/2`, `R = 1`. -/
lemma qStep_c4 : qStep .shellTube .c12 (2 / 1000) 0 1 1 1 1 (1 / 1000) =
    .ok (1 * 1 * (1 / 1000) * limitF12 (1 / 2)) := by
  simp only [qStep, computeLMTD, reduceCtorEq, if_false]
  norm_num
  rw [corrF_half_one_eq]
  simp

lemma iterGo_succ (flow : FlowType) (cfg : ShellConfig)
    (Th Tc Ch Cc U A : ℝ) (n : ℕ) (q : ℝ) :
    iterGo flow cfg Th Tc Ch Cc U A (n + 1) q =
      match qStep flow cfg Th Tc Ch Cc U A q with
      | .error e => .error e
      | .ok qc => if |qc - q| < 0.01 then .ok q
          else iterGo flow cfg Th Tc Ch Cc U A n qc := rfl

lemma iterGo_step_ok {flow : FlowType} {cfg : ShellConfig}
    {Th Tc Ch Cc U A : ℝ} {n : ℕ} {q qc : ℝ}
    (h : qStep flow cfg Th Tc Ch Cc U A q = .ok qc) :
    iterGo flow cfg Th Tc Ch Cc U A (n + 1) q =
      if |qc - q| < 0.01 then .ok q
      else iterGo flow cfg Th Tc Ch Cc U A n qc := by
  rw [iterGo_succ, h]

lemma qc_near : |1 * 1 * (1 / 1000 : ℝ) * limitF12 (1 / 2) - 1 / 1000| < 0.01 := by
  have hneg := limitF12_neg (P := 1 / 2) (by norm_num) (by norm_num)
  have hge := limitF12_half_ge
  rw [abs_lt]
  constructor <;> nlinarith

/-- C4 counterexample: at `Th_in = 0.002`, `Tc_in = 0`, `C_h = C_c = U = A =
C_min = 1` the loop accepts on the first iteration because `|Q_calc - Q_guess| =
|0.001·F - 0.001| < 0.01`, but it returns the guess `0.001`, not `Q_calc`
(which is negative): the source's `return Q` returns the pre-iteration guess. -/
theorem C4_counterexample :
    iterateQ .shellTube .c12 (2 / 1000) 0 1 1 1 1 1 = .ok (1 / 1000) ∧
    qStep .shellTube .c12 (2 / 1000) 0 1 1 1 1 (1 / 1000) =
      .ok (1 * 1 * (1 / 1000) * limitF12 (1 / 2)) ∧
    1 * 1 * (1 / 1000 : ℝ) * limitF12 (1 / 2) < 0 ∧
    (1 / 1000 : ℝ) ≠ 1 * 1 * (1 / 1000) * limitF12 (1 / 2) := by
  have hneg := limitF12_neg (P := 1 / 2) (by norm_num) (by norm_num)
  refine ⟨?_, qStep_c4, by nlinarith, by nlinarith⟩
  have hq : (1 : ℝ) * (2 / 1000 - 0) * 0.5 = 1 / 1000 := by norm_num
  simp only [iterateQ, hq]
  rw [show (100 : ℕ) = 99 + 1 from rfl, iterGo_step_ok qStep_c4, if_pos qc_near]

/-- C4 amended: the iterative path starts from `Q_guess = 0.5 * C_min *
(Th_in - Tc_in)`, runs at most 100 iterations, fails with
`ConvergenceFailureError` when the budget is exhausted, and on success returns
the current *guess* `q` — a value whose step image `Q_calc` satisfies
`|Q_calc - q| < 0.01` — rather than `Q_calc` itself. -/
theorem C4_amended :
    (∀ (flow : FlowType) (cfg : ShellConfig) (Th Tc Ch Cc U A Cm : ℝ),
      iterateQ flow cfg Th Tc Ch Cc U A Cm =
        iterGo flow cfg Th Tc Ch Cc U A 100 (Cm * (Th - Tc) * 0.5)) ∧
    (∀ (flow : FlowType) (cfg : ShellConfig) (Th Tc Ch Cc U A q₀ : ℝ),
      iterGo flow cfg Th Tc Ch Cc U A 0 q₀ = .error .convergenceFailure) ∧
    (∀ (flow : FlowType) (cfg : ShellConfig) (Th Tc Ch Cc U A : ℝ) (n : ℕ)
      (q₀ q : ℝ), iterGo flow cfg Th Tc Ch Cc U A n q₀ = .ok q →
      ∃ qc, qStep flow cfg Th Tc Ch Cc U A q = .ok qc ∧ |qc - q| < 0.01) := by
  refine ⟨fun _ _ _ _ _ _ _ _ _ => rfl, fun _ _ _ _ _ _ _ _ _ => rfl, ?_⟩
  intro flow cfg Th Tc Ch Cc U A n
  induction n with
  | zero =>
      intro q₀ q h
      simp only [iterGo] at h
      exact Except.noConfusion h
  | succ n ih =>
      intro q₀ q h
      simp only [iterGo] at h
      split at h
      next e heq => exact Except.noConfusion h
      next qc heq =>
        split at h
        next hlt =>
          injection h with h'
          subst h'
          exact ⟨qc, heq, hlt⟩
        next hlt => exact ih _ _ h

/-- C4 amended witness: the acceptance property instantiated on the concrete
converging run of the counterexample scenario. -/
theorem C4_amended_witness :
    |1 * 1 * (1 / 1000 : ℝ) * limitF12 (1 / 2) - 1 / 1000| < 0.01 := by
  have hrun : iterGo .shellTube .c12 (2 / 1000) 0 1 1 1 1 100 (1 / 1000) =
      .ok (1 / 1000) := by
    rw [show (100 : ℕ) = 99 + 1 from rfl, iterGo_step_ok qStep_c4, if_pos qc_near]
  obtain ⟨qc, hq, hb⟩ := C4_amended.2.2 .shellTube .c12 (2 / 1000) 0 1 1 1 1
    100 (1 / 1000) (1 / 1000) hrun
  rw [qStep_c4] at hq
  injection hq with h'
  rwa [← h'] at hb

/-! ## C9: fail-fast preconditions -/

/-- C9: the solver fails fast before any derivation, in source order: an empty
known set fails with `InsufficientKnownsError`; an empty unknown set fails with
`NoUnknownsSelectedError`; and when some declared known lacks a finite numeric
value (an absent value in this embedding), the solve fails with
`MissingValueError` naming an invalid known parameter (the first such, in
declaration order). -/
theorem C9_fail_fast :
    (∀ (input : Param → Option ℝ) (unknowns : List Param) (flow : FlowType)
      (cfg : ShellConfig),
      solveHeatExchanger input [] unknowns flow cfg =
        .error .insufficientKnowns) ∧
    (∀ (input : Param → Option ℝ) (knowns : List Param) (flow : FlowType)
      (cfg : ShellConfig), knowns ≠ [] →
      solveHeatExchanger input knowns [] flow cfg =
        .error .noUnknownsSelected) ∧
    (∀ (input : Param → Option ℝ) (knowns unknowns : List Param)
      (flow : FlowType) (cfg : ShellConfig) (p : Param),
      knowns ≠ [] → unknowns ≠ [] → p ∈ knowns → input p = none →
      ∃ q, q ∈ knowns ∧ input q = none ∧
        solveHeatExchanger input knowns unknowns flow cfg =
          .error (.missingValue q)) := by
  refine ⟨?_, ?_, ?_⟩
  · intro input u flow cfg
    simp [solveHeatExchanger]
  · intro input k flow cfg hk
    simp [solveHeatExchanger, hk]
  · intro input knowns unknowns flow cfg p hk hu hmem hnone
    have hsome : (knowns.find? (fun p => (input p).isNone)).isSome := by
      rw [List.find?_isSome]
      exact ⟨p, hmem, by simp [hnone]⟩
    obtain ⟨q, hq⟩ := Option.isSome_iff_exists.mp hsome
    have hqmem : q ∈ knowns := List.mem_of_find?_eq_some hq
    have hqnone : input q = none := by
      have := List.find?_some hq
      simpa [Option.isNone_iff_eq_none] using this
    refine ⟨q, hqmem, hqnone, ?_⟩
    simp only [solveHeatExchanger]
    rw [if_neg hk, if_neg hu, hq]

/-- C9 witness: knowns `[Q]` with no supplied value, unknowns `[A]`: the solve
fails with `MissingValueError Q`. -/
theorem C9_fail_fast_witness :
    solveHeatExchanger (fun _ => none) [Param.Q] [Param.A] .counter .c12 =
      .error (.missingValue .Q) := by
  obtain ⟨q, hq, -, hs⟩ := C9_fail_fast.2.2 (fun _ => none) [Param.Q] [Param.A]
    .counter .c12 Param.Q (by simp) (by simp) (by simp) rfl
  have hqq : q = Param.Q := by simpa using hq
  rwa [hqq] at hs

/-! ## C3: the effectiveness bound -/

/-- C3 counterexample: knowns `Q = 600`, `m_h = cp_h = m_c = cp_c = 1`,
`Th_in = 80`, `Tc_in = 20` (so `Th_in > Tc_in` and both capacity rates are
positive), unknown `Th_out`, counter flow: the solve completes without error and
stores `epsilon = 600 / (1·(80-20)) = 10 > 1` — the solver never clamps or
validates `epsilon`. -/
theorem C3_counterexample :
    Except.map HXOut.epsilon (solveHeatExchanger suppliedDutyInput
      [.Q, .m_h, .cp_h, .m_c, .cp_c, .Th_in, .Tc_in] [.Th_out]
      .counter .c12) = .ok (some 10) ∧
    (1 : ℝ) < 10 ∧ (20 : ℝ) < 80 ∧ (0 : ℝ) < 1 * 1 := by
  refine ⟨?_, by norm_num, by norm_num, by norm_num⟩
  have hk : mkKnown suppliedDutyInput
      [.Q, .m_h, .cp_h, .m_c, .cp_c, .Th_in, .Tc_in] = suppliedDutyInput := by
    funext p; cases p <;> rfl
  have hfind : List.find? (fun p => (suppliedDutyInput p).isNone)
      [.Q, .m_h, .cp_h, .m_c, .cp_c, .Th_in, .Tc_in] = none := rfl
  have hCh : hotCapacity suppliedDutyInput = some 1 := by
    simp [hotCapacity, suppliedDutyInput]
  have hCc : coldCapacity suppliedDutyInput = some 1 := by
    simp [coldCapacity, suppliedDutyInput]
  have hCmin : minCapacity (some 1) (some 1) = some 1 := by
    simp [minCapacity]
  have hCmax : maxCapacity (some 1) (some 1) = some 1 := by
    simp [maxCapacity]
  have hCr : capacityRatio (some 1) (some 1) = some 1 := by
    simp [capacityRatio]
  have hiQ : interdepQ [.Th_out] suppliedDutyInput (some 1) (some 1)
      suppliedDutyInput = suppliedDutyInput := by
    simp [interdepQ]
  have hiTc : interdepTcOut [.Th_out] suppliedDutyInput (some 1)
      suppliedDutyInput = suppliedDutyInput := by
    simp [interdepTcOut]
  have hiTh : interdepThOut [.Th_out] suppliedDutyInput (some 1)
      suppliedDutyInput = upd suppliedDutyInput .Th_out (-520) := by
    simp [interdepThOut, suppliedDutyInput]
    norm_num
  have hinterp : calcInterdep .counter [.Th_out] suppliedDutyInput
      (some 1) (some 1) suppliedDutyInput =
      .ok (upd suppliedDutyInput .Th_out (-520)) := by
    rw [calcInterdep, hiQ, hiTc, hiTh]
    simp [interdepA]
  have hboth : bothOutletsStep .counter .c12 [.Th_out] suppliedDutyInput
      (some 1) (some 1) (some 1) (some 1) (upd suppliedDutyInput .Th_out (-520)) =
      .ok (upd suppliedDutyInput .Th_out (-520)) := by
    simp [bothOutletsStep]
  have hfin : finalize .counter .c12 suppliedDutyInput (some 1) (some 1) (some 1)
      (upd suppliedDutyInput .Th_out (-520)) =
      .ok ⟨upd suppliedDutyInput .Th_out (-520), some 10, none, none, none,
        none⟩ := by
    simp [finalize, lmtdFields, validityCheck, suppliedDutyInput, jsOr, upd]
    norm_num
  simp only [solveHeatExchanger, hfind, hk, hCh, hCc, hCmin, hCmax, hCr,
    hinterp, hboth, hfin, Except.map, reduceCtorEq]
  norm_num

/-! ## Frame lemmas: which entries each solver stage can write -/

lemma upd_ne {m : Param → Option ℝ} {p q : Param} {v : ℝ} (h : q ≠ p) :
    upd m p v q = m q := if_neg h

lemma interdepQ_frame {unknowns : List Param} {known : Param → Option ℝ}
    {C_h C_c : Option ℝ} {results : Param → Option ℝ} {p : Param}
    (hp : p ∉ unknowns) :
    interdepQ unknowns known C_h C_c results p = results p := by
  unfold interdepQ
  split
  next hc => exact upd_ne fun h => hp (by rw [h]; exact hc.1)
  next =>
    split
    next hc => exact upd_ne fun h => hp (by rw [h]; exact hc.1)
    next => rfl

lemma interdepTcOut_frame {unknowns : List Param} {known : Param → Option ℝ}
    {C_c : Option ℝ} {results : Param → Option ℝ} {p : Param}
    (hp : p ∉ unknowns) :
    interdepTcOut unknowns known C_c results p = results p := by
  unfold interdepTcOut
  split
  next hc => exact upd_ne fun h => hp (by rw [h]; exact hc.1)
  next => rfl

lemma interdepThOut_frame {unknowns : List Param} {known : Param → Option ℝ}
    {C_h : Option ℝ} {results : Param → Option ℝ} {p : Param}
    (hp : p ∉ unknowns) :
    interdepThOut unknowns known C_h results p = results p := by
  unfold interdepThOut
  split
  next hc => exact upd_ne fun h => hp (by rw [h]; exact hc.1)
  next => rfl

lemma interdepA_frame {flow : FlowType} {unknowns : List Param}
    {known results : Param → Option ℝ} {r : Param → Option ℝ} {p : Param}
    (h : interdepA flow unknowns known results = .ok r) (hp : p ∉ unknowns) :
    r p = results p := by
  unfold interdepA at h
  split at h
  next hc =>
    split at h
    next => exact Except.noConfusion h
    next lmtd heq =>
      split at h
      next hpos =>
        injection h with h'
        subst h'
        exact upd_ne fun hpa => hp (by rw [hpa]; exact hc.1)
      next => exact Except.noConfusion h
  next =>
    injection h with h'
    subst h'
    rfl

lemma calcInterdep_frame {flow : FlowType} {unknowns : List Param}
    {known : Param → Option ℝ} {C_h C_c : Option ℝ}
    {results r : Param → Option ℝ} {p : Param}
    (h : calcInterdep flow unknowns known C_h C_c results = .ok r)
    (hp : p ∉ unknowns) : r p = results p := by
  unfold calcInterdep at h
  rw [interdepA_frame h hp, interdepThOut_frame hp, interdepTcOut_frame hp,
    interdepQ_frame hp]

lemma bothOutletsStep_frame {flow : FlowType} {cfg : ShellConfig}
    {unknowns : List Param} {known : Param → Option ℝ}
    {C_h C_c C_min Cr : Option ℝ} {r0 r : Param → Option ℝ} {p : Param}
    (h : bothOutletsStep flow cfg unknowns known C_h C_c C_min Cr r0 = .ok r)
    (hp : p ∉ unknowns) (hpQ : p ≠ .Q) : r p = r0 p := by
  simp only [bothOutletsStep] at h
  split at h
  next hc =>
    split at h
    next hc2 =>
      split at h
      next heps =>
        injection h with h'
        subst h'
        rw [upd_ne (fun hq => hp (by rw [hq]; exact hc.2.1)),
          upd_ne (fun hq => hp (by rw [hq]; exact hc.1)), upd_ne hpQ]
      next =>
        split at h
        next hcfg =>
          split at h
          next => exact Except.noConfusion h
          next Qi heq =>
            injection h with h'
            subst h'
            rw [upd_ne (fun hq => hp (by rw [hq]; exact hc.2.1)),
              upd_ne (fun hq => hp (by rw [hq]; exact hc.1)), upd_ne hpQ]
        next =>
          injection h with h'
          subst h'
          rfl
    next => exact Except.noConfusion h
  next =>
    injection h with h'
    subst h'
    rfl

lemma validityCheck_vals {flow : FlowType} {a b c d : Option ℝ} {res out : HXOut}
    (h : validityCheck flow a b c d res = .ok out) : out = res := by
  unfold validityCheck at h
  split at h
  next =>
    split at h
    next => exact Except.noConfusion h
    next =>
      split at h
      next => exact Except.noConfusion h
      next =>
        injection h with h2
        exact h2.symm
  next =>
    injection h with h2
    exact h2.symm

lemma finalize_vals {flow : FlowType} {cfg : ShellConfig}
    {known : Param → Option ℝ} {C_h C_c C_min : Option ℝ}
    {r : Param → Option ℝ} {out : HXOut}
    (h : finalize flow cfg known C_h C_c C_min r = .ok out) : out.vals = r := by
  simp only [finalize] at h
  split at h
  next => exact Except.noConfusion h
  next Lu cf Lc heq =>
    rw [validityCheck_vals h]

/-! ## C10: the knowns are preserved in the result -/

/-- C10 counterexample: with knowns `Th_in = 80, Tc_in = 20, m_h = cp_h = m_c =
cp_c = U = A = 1, Q = 999` and unknowns `{Th_out, Tc_out}` (disjoint sets), the
both-outlets branch recomputes the duty from the effectiveness relation and
overwrites the supplied known `Q = 999` with `30` in the returned map. -/
theorem C10_counterexample :
    Except.map (fun o => HXOut.vals o Param.Q) (solveHeatExchanger
      overwriteQInput [.Th_in, .Tc_in, .m_h, .cp_h, .m_c, .cp_c, .U, .A, .Q]
      [.Th_out, .Tc_out] .counter .c12) = .ok (some 30) ∧
    overwriteQInput Param.Q = some 999 ∧
    ([Param.Th_in, .Tc_in, .m_h, .cp_h, .m_c, .cp_c, .U, .A, .Q].inter
      [Param.Th_out, .Tc_out] : List Param) = [] ∧
    (999 : ℝ) ≠ 30 := by
  refine ⟨?_, rfl, by decide, by norm_num⟩
  have hk : mkKnown overwriteQInput
      [.Th_in, .Tc_in, .m_h, .cp_h, .m_c, .cp_c, .U, .A, .Q] =
      overwriteQInput := by
    funext p; cases p <;> rfl
  have hfind : List.find? (fun p => (overwriteQInput p).isNone)
      [.Th_in, .Tc_in, .m_h, .cp_h, .m_c, .cp_c, .U, .A, .Q] = none := rfl
  have hCh : hotCapacity overwriteQInput = some 1 := by
    simp [hotCapacity, overwriteQInput]
  have hCc : coldCapacity overwriteQInput = some 1 := by
    simp [coldCapacity, overwriteQInput]
  have hCmin : minCapacity (some 1) (some 1) = some 1 := by simp [minCapacity]
  have hCmax : maxCapacity (some 1) (some 1) = some 1 := by simp [maxCapacity]
  have hCr : capacityRatio (some 1) (some 1) = some 1 := by simp [capacityRatio]
  have hiQ : interdepQ [.Th_out, .Tc_out] overwriteQInput (some 1) (some 1)
      overwriteQInput = overwriteQInput := by
    simp [interdepQ]
  have hiTc : interdepTcOut [.Th_out, .Tc_out] overwriteQInput (some 1)
      overwriteQInput = upd overwriteQInput .Tc_out 1019 := by
    simp [interdepTcOut, overwriteQInput]
    norm_num
  have hiTh : interdepThOut [.Th_out, .Tc_out] overwriteQInput (some 1)
      (upd overwriteQInput .Tc_out 1019) =
      upd (upd overwriteQInput .Tc_out 1019) .Th_out (-919) := by
    simp [interdepThOut, overwriteQInput, upd]
    norm_num
  have hiA : interdepA .counter [.Th_out, .Tc_out] overwriteQInput
      (upd (upd overwriteQInput .Tc_out 1019) .Th_out (-919)) =
      .ok (upd (upd overwriteQInput .Tc_out 1019) .Th_out (-919)) := by
    simp [interdepA]
  have hinterp : calcInterdep .counter [.Th_out, .Tc_out] overwriteQInput
      (some 1) (some 1) overwriteQInput =
      .ok (upd (upd overwriteQInput .Tc_out 1019) .Th_out (-919)) := by
    rw [calcInterdep, hiQ, hiTc, hiTh, hiA]
  have heff : computeEffectiveness (some 1) (some 1) .counter =
      some (1 / 2) := by
    simp [computeEffectiveness]
    norm_num
  have hboth : bothOutletsStep .counter .c12 [.Th_out, .Tc_out] overwriteQInput
      (some 1) (some 1) (some 1) (some 1)
      (upd (upd overwriteQInput .Tc_out 1019) .Th_out (-919)) =
      .ok (upd (upd (upd (upd (upd overwriteQInput .Tc_out 1019) .Th_out (-919))
        .Q 30) .Th_out 50) .Tc_out 50) := by
    simp only [bothOutletsStep, overwriteQInput, val_some, reduceCtorEq,
      not_false_eq_true, and_self, and_true, true_and, List.mem_cons,
      List.mem_singleton, eq_self_iff_true, or_true, true_or, if_true]
    norm_num [heff, upd, overwriteQInput]
  have hlm : computeLMTD .counter 80 20 50 50 = .ok 30 := by
    simp only [computeLMTD, reduceCtorEq, if_false]
    rw [if_pos (by norm_num)]
    norm_num
  have hlf : lmtdFields .counter .c12 (some 80) (some 20) (some 50) (some 50) =
      .ok (some 30,
        some (calculateCorrectionFactor ((50 - 20) / (80 - 20))
          ((80 - 50) / (50 - 20)) .c12),
        some (calculateCorrectionFactor ((50 - 20) / (80 - 20))
          ((80 - 50) / (50 - 20)) .c12 * 30)) := by
    simp only [lmtdFields, hlm, truthy_some, val_some]
    rw [if_pos (by norm_num)]
    rw [if_pos ⟨by decide, by decide⟩]
  have hfin : Except.map (fun o => HXOut.vals o Param.Q)
      (finalize .counter .c12 overwriteQInput (some 1) (some 1) (some 1)
        (upd (upd (upd (upd (upd overwriteQInput .Tc_out 1019) .Th_out (-919))
          .Q 30) .Th_out 50) .Tc_out 50)) = .ok (some 30) := by
    simp only [finalize, overwriteQInput, jsOr, upd, truthy_some, val_some,
      reduceCtorEq, if_false, if_true]
    norm_num [hlf, validityCheck, Except.map]
    simp [upd]
  simp only [solveHeatExchanger, hfind, hk, hCh, hCc, hCmin, hCmax, hCr,
    hinterp, hboth, reduceCtorEq]
  exact hfin

/-- C10 amended: for an accepted solve with disjoint known/unknown identifier
sets, every known parameter *other than `Q`* appears in the returned map with
exactly its supplied value: the derivation steps assign only identifiers in the
unknown set — except that the both-outlets branch may overwrite a known `Q`
(see the counterexample). -/
theorem C10_amended (siInputs : Param → Option ℝ) (knowns unknowns : List Param)
    (flow : FlowType) (cfg : ShellConfig) (out : HXOut) (p : Param)
    (hdisj : ∀ q ∈ knowns, q ∉ unknowns)
    (hok : solveHeatExchanger siInputs knowns unknowns flow cfg = .ok out)
    (hp : p ∈ knowns) (hpQ : p ≠ .Q) :
    out.vals p = siInputs p := by
  simp only [solveHeatExchanger] at hok
  split at hok
  next => exact Except.noConfusion hok
  next hk =>
    split at hok
    next => exact Except.noConfusion hok
    next hu =>
      split at hok
      next q heq => exact Except.noConfusion hok
      next hfind =>
        split at hok
        next e heq => exact Except.noConfusion hok
        next r0 heq =>
          split at hok
          next e heq2 => exact Except.noConfusion hok
          next r heq2 =>
            have h1 := calcInterdep_frame heq (hdisj p hp)
            have h2 := bothOutletsStep_frame heq2 (hdisj p hp) hpQ
            rw [finalize_vals hok, h2, h1]
            simp only [mkKnown]
            rw [if_pos hp]

/-- C10 amended witness: a single known `A = 5`, unknown `Q`: the accepted run
returns `A` with exactly the supplied value. -/
theorem C10_amended_witness :
    Except.map (fun o => HXOut.vals o Param.A) (solveHeatExchanger
      (singleInput .A 5) [.A] [.Q] .counter .c12) = .ok (some 5) := by
  have hk : mkKnown (singleInput .A 5) [.A] = singleInput .A 5 := by
    funext p; cases p <;> rfl
  have hfind : List.find? (fun p => ((singleInput .A 5) p).isNone) [.A] =
      none := rfl
  have hCh : hotCapacity (singleInput .A 5) = none := by
    simp [hotCapacity, singleInput]
  have hCc : coldCapacity (singleInput .A 5) = none := by
    simp [coldCapacity, singleInput]
  have hCmin : minCapacity none none = none := by simp [minCapacity, truthy]
  have hCmax : maxCapacity none none = none := by simp [maxCapacity, truthy]
  have hCr : capacityRatio none none = none := by simp [capacityRatio, truthy]
  have hinterp : calcInterdep .counter [.Q] (singleInput .A 5) none none
      (singleInput .A 5) = .ok (singleInput .A 5) := by
    rw [calcInterdep]
    have hiQ : interdepQ [.Q] (singleInput .A 5) none none (singleInput .A 5) =
        singleInput .A 5 := by
      simp [interdepQ, singleInput, truthy]
    have hiTc : interdepTcOut [.Q] (singleInput .A 5) none (singleInput .A 5) =
        singleInput .A 5 := by
      simp [interdepTcOut]
    have hiTh : interdepThOut [.Q] (singleInput .A 5) none (singleInput .A 5) =
        singleInput .A 5 := by
      simp [interdepThOut]
    rw [hiQ, hiTc, hiTh]
    simp [interdepA]
  have hboth : bothOutletsStep .counter .c12 [.Q] (singleInput .A 5) none none
      none none (singleInput .A 5) = .ok (singleInput .A 5) := by
    simp [bothOutletsStep]
  have hfin : ∃ out, finalize .counter .c12 (singleInput .A 5) none none none
      (singleInput .A 5) = .ok out := by
    simp [finalize, lmtdFields, validityCheck, singleInput, jsOr, truthy]
  obtain ⟨out, hout⟩ := hfin
  have hrun : solveHeatExchanger (singleInput .A 5) [.A] [.Q] .counter .c12 =
      .ok out := by
    simp only [solveHeatExchanger, hfind, hk, hCh, hCc, hCmin, hCmax, hCr,
      hinterp, hboth, reduceCtorEq]
    exact hout
  have hval := C10_amended (singleInput .A 5) [.A] [.Q] .counter .c12 out
    Param.A (by decide) hrun (by decide) (by decide)
  rw [hrun]
  simp only [Except.map, hval, singleInput]
  rfl

/-! ## C2: invalid-direction detection in parallel flow -/

/-- C2 counterexample: parallel flow with all four boundary temperatures known,
`Th_in = 80, Tc_in = 20, Th_out = 30, Tc_out = 40` (so `Th_out < Tc_out`): the
solver raises `InvalidTemperatureDifferenceError` from the LMTD computation
(`dt2 = -10 ≤ 0`), not the claimed `PhysicallyInvalidResultError` — the LMTD
computation runs before the post-hoc validity check. -/
theorem C2_counterexample :
    solveHeatExchanger (tempsInput 80 20 30 40)
      [.Th_in, .Tc_in, .Th_out, .Tc_out] [.Q] .parallel .c12 =
      .error .invalidTemperatureDifference ∧
    (30 : ℝ) < 40 ∧
    HXError.invalidTemperatureDifference ≠ HXError.physicallyInvalidResult := by
  refine ⟨?_, by norm_num, by decide⟩
  have hk : mkKnown (tempsInput 80 20 30 40) [.Th_in, .Tc_in, .Th_out, .Tc_out]
      = tempsInput 80 20 30 40 := by
    funext p; cases p <;> rfl
  have hfind : List.find? (fun p => ((tempsInput 80 20 30 40) p).isNone)
      [.Th_in, .Tc_in, .Th_out, .Tc_out] = none := rfl
  have hCh : hotCapacity (tempsInput 80 20 30 40) = none := by
    simp [hotCapacity, tempsInput]
  have hCc : coldCapacity (tempsInput 80 20 30 40) = none := by
    simp [coldCapacity, tempsInput]
  have hCmin : minCapacity none none = none := by simp [minCapacity, truthy]
  have hCmax : maxCapacity none none = none := by simp [maxCapacity, truthy]
  have hCr : capacityRatio none none = none := by simp [capacityRatio, truthy]
  have hinterp : calcInterdep .parallel [.Q] (tempsInput 80 20 30 40) none none
      (tempsInput 80 20 30 40) = .ok (tempsInput 80 20 30 40) := by
    rw [calcInterdep]
    have h1 : interdepQ [.Q] (tempsInput 80 20 30 40) none none
        (tempsInput 80 20 30 40) = tempsInput 80 20 30 40 := by
      simp [interdepQ, truthy]
    have h2 : interdepTcOut [.Q] (tempsInput 80 20 30 40) none
        (tempsInput 80 20 30 40) = tempsInput 80 20 30 40 := by
      simp [interdepTcOut, truthy]
    have h3 : interdepThOut [.Q] (tempsInput 80 20 30 40) none
        (tempsInput 80 20 30 40) = tempsInput 80 20 30 40 := by
      simp [interdepThOut, truthy]
    rw [h1, h2, h3]
    simp [interdepA]
  have hboth : bothOutletsStep .parallel .c12 [.Q] (tempsInput 80 20 30 40)
      none none none none (tempsInput 80 20 30 40) =
      .ok (tempsInput 80 20 30 40) := by
    simp [bothOutletsStep]
  have hlm : computeLMTD .parallel 80 20 30 40 =
      .error .invalidTemperatureDifference := by
    simp only [computeLMTD, eq_self_iff_true, if_true]
    rw [if_neg (by norm_num), if_pos (by norm_num)]
  have hlmf : lmtdFields .parallel .c12 (some 80) (some 20) (some 30) (some 40)
      = .error .invalidTemperatureDifference := by
    unfold lmtdFields
    rw [if_pos (by norm_num [truthy])]
    simp only [val_some, hlm]
  have hfin : finalize .parallel .c12 (tempsInput 80 20 30 40) none none none
      (tempsInput 80 20 30 40) = .error .invalidTemperatureDifference := by
    simp [finalize, tempsInput, jsOr, truthy, hlmf]
  simp only [solveHeatExchanger, hfind, hk, hCh, hCc, hCmin, hCmax, hCr,
    hinterp, hboth, reduceCtorEq]
  exact hfin

/-- C2 amended: for parallel flow with the four boundary temperatures known
(nonzero values, so all truthy) with `Th_out < Tc_out` and a single requested
unknown `Q`, the solver always raises an error — but which one depends on the
LMTD branch: `PhysicallyInvalidResultError` when `dt1` and `dt2` agree within
1e-6 (the near-equality LMTD branch returns a value and the post-hoc check
fires), and `InvalidTemperatureDifferenceError` otherwise (the LMTD computation
throws first). -/
theorem C2_amended (a b c d : ℝ) (cfg : ShellConfig)
    (ha : a ≠ 0) (hb : b ≠ 0) (hc : c ≠ 0) (hd : d ≠ 0) (hcd : c < d) :
    solveHeatExchanger (tempsInput a b c d)
      [.Th_in, .Tc_in, .Th_out, .Tc_out] [.Q] .parallel cfg =
      .error (if |(a - b) - (c - d)| < 1e-6 then HXError.physicallyInvalidResult
        else HXError.invalidTemperatureDifference) := by
  have hk : mkKnown (tempsInput a b c d) [.Th_in, .Tc_in, .Th_out, .Tc_out]
      = tempsInput a b c d := by
    funext p; cases p <;> rfl
  have hfind : List.find? (fun p => ((tempsInput a b c d) p).isNone)
      [.Th_in, .Tc_in, .Th_out, .Tc_out] = none := rfl
  have hCh : hotCapacity (tempsInput a b c d) = none := by
    simp [hotCapacity, tempsInput]
  have hCc : coldCapacity (tempsInput a b c d) = none := by
    simp [coldCapacity, tempsInput]
  have hCmin : minCapacity none none = none := by simp [minCapacity, truthy]
  have hCmax : maxCapacity none none = none := by simp [maxCapacity, truthy]
  have hCr : capacityRatio none none = none := by simp [capacityRatio, truthy]
  have hinterp : calcInterdep .parallel [.Q] (tempsInput a b c d) none none
      (tempsInput a b c d) = .ok (tempsInput a b c d) := by
    rw [calcInterdep]
    have h1 : interdepQ [.Q] (tempsInput a b c d) none none
        (tempsInput a b c d) = tempsInput a b c d := by
      simp [interdepQ, truthy]
    have h2 : interdepTcOut [.Q] (tempsInput a b c d) none
        (tempsInput a b c d) = tempsInput a b c d := by
      simp [interdepTcOut, truthy]
    have h3 : interdepThOut [.Q] (tempsInput a b c d) none
        (tempsInput a b c d) = tempsInput a b c d := by
      simp [interdepThOut, truthy]
    rw [h1, h2, h3]
    simp [interdepA]
  have hboth : bothOutletsStep .parallel cfg [.Q] (tempsInput a b c d)
      none none none none (tempsInput a b c d) =
      .ok (tempsInput a b c d) := by
    simp [bothOutletsStep]
  have hfin : finalize .parallel cfg (tempsInput a b c d) none none none
      (tempsInput a b c d) =
      .error (if |(a - b) - (c - d)| < 1e-6 then HXError.physicallyInvalidResult
        else HXError.invalidTemperatureDifference) := by
    simp only [finalize, tempsInput, jsOr, truthy_some, val_some, truthy,
      ite_self, ne_eq, ha, hb, hc, hd, not_false_eq_true, if_true, and_true,
      true_and, and_false, false_and, if_false]
    by_cases hnear : |(a - b) - (c - d)| < 1e-6
    · rw [if_pos hnear]
      have hlm : computeLMTD .parallel a b c d = .ok (a - b) := by
        simp only [computeLMTD, eq_self_iff_true, if_true]
        rw [if_pos hnear]
      have hlmf : ∃ t, lmtdFields .parallel cfg (some a) (some b) (some c)
          (some d) = .ok t := by
        unfold lmtdFields
        rw [if_pos ⟨ha, hb, hc, hd⟩]
        simp only [val_some, hlm]
        split
        · exact ⟨_, rfl⟩
        · exact ⟨_, rfl⟩
      obtain ⟨t, ht⟩ := hlmf
      simp only [ht]
      unfold validityCheck
      rw [if_pos ⟨hc, hd, ha, hb⟩, if_pos ⟨rfl, hcd⟩]
    · rw [if_neg hnear]
      have hlm : computeLMTD .parallel a b c d =
          .error .invalidTemperatureDifference := by
        simp only [computeLMTD, eq_self_iff_true, if_true]
        rw [if_neg hnear, if_pos (Or.inr (by linarith))]
      have hlmf : lmtdFields .parallel cfg (some a) (some b) (some c) (some d)
          = .error .invalidTemperatureDifference := by
        unfold lmtdFields
        rw [if_pos ⟨ha, hb, hc, hd⟩]
        simp only [val_some, hlm]
      simp only [hlmf]
  simp only [solveHeatExchanger, hfind, hk, hCh, hCc, hCmin, hCmax, hCr,
    hinterp, hboth, reduceCtorEq]
  exact hfin

/-- C2 amended witness: the near-equality case at `(20, 25, 30, 35)`
(`dt1 = dt2 = -5`) raises `PhysicallyInvalidResultError`. -/
theorem C2_amended_witness :
    solveHeatExchanger (tempsInput 20 25 30 35)
      [.Th_in, .Tc_in, .Th_out, .Tc_out] [.Q] .parallel .c12 =
      .error .physicallyInvalidResult := by
  have h := C2_amended 20 25 30 35 .c12 (by norm_num) (by norm_num)
    (by norm_num) (by norm_num) (by norm_num)
  rwa [if_pos (by norm_num)] at h

/-! ## C3 amended: the closed-form effectiveness is bounded -/

/-- C3 amended: the solver does not bound or validate the stored `epsilon` in
general (see the counterexample: a supplied duty yields `epsilon = 10` without
error).  What does hold: the closed-form effectiveness relation used by the
both-outlets branch returns a value in `[0, 1]` whenever `NTU ≥ 0` and
`0 < Cr ≤ 1`; and on the concrete both-outlets counter-flow run the solver
stores `epsilon = 1/2 ∈ [0, 1]`. -/
theorem C3_amended :
    (∀ (NTU Cr e : ℝ) (flow : FlowType), 0 ≤ NTU → 0 < Cr → Cr ≤ 1 →
      computeEffectiveness (some NTU) (some Cr) flow = some e →
      0 ≤ e ∧ e ≤ 1) ∧
    Except.map HXOut.epsilon (solveHeatExchanger bothOutletsInput
      [.Th_in, .Tc_in, .m_h, .cp_h, .m_c, .cp_c, .U, .A] [.Th_out, .Tc_out]
      .counter .c12) = .ok (some (1 / 2)) := by
  constructor
  · intro NTU Cr e flow hN hC hC1 heq
    simp only [computeEffectiveness, truthy_some, val_some] at heq
    split at heq
    next hguard => exact absurd heq (by simp)
    next hguard =>
      push_neg at hguard
      have hN0 : 0 < NTU := lt_of_le_of_ne hN (Ne.symm hguard.1)
      split at heq
      next hflow =>
        split at heq
        next hnearCr =>
          injection heq with he
          subst he
          constructor
          · positivity
          · rw [div_le_one (by positivity)]
            linarith
        next hnearCr =>
          injection heq with he
          subst he
          have hCr1 : Cr < 1 :=
            lt_of_le_of_ne hC1 fun h => hnearCr (by rw [h]; norm_num)
          have hE1 : Real.exp (-NTU * (1 - Cr)) < 1 := by
            rw [Real.exp_lt_one_iff]
            nlinarith
          have hE0 : 0 < Real.exp (-NTU * (1 - Cr)) := Real.exp_pos _
          have hden : 0 < 1 - Cr * Real.exp (-NTU * (1 - Cr)) := by nlinarith
          constructor
          · exact div_nonneg (by linarith) (le_of_lt hden)
          · rw [div_le_one hden]
            nlinarith
      next hflow =>
        split at heq
        next hpar =>
          injection heq with he
          subst he
          have hE0 : 0 < Real.exp (-NTU * (1 + Cr)) := Real.exp_pos _
          have hE1 : Real.exp (-NTU * (1 + Cr)) < 1 := by
            rw [Real.exp_lt_one_iff]
            nlinarith
          constructor
          · exact div_nonneg (by linarith) (by linarith)
          · rw [div_le_one (by linarith)]
            nlinarith
        next hpar => exact absurd heq (by simp)
  · have hk : mkKnown bothOutletsInput
        [.Th_in, .Tc_in, .m_h, .cp_h, .m_c, .cp_c, .U, .A] =
        bothOutletsInput := by
      funext p; cases p <;> rfl
    have hfind : List.find? (fun p => (bothOutletsInput p).isNone)
        [.Th_in, .Tc_in, .m_h, .cp_h, .m_c, .cp_c, .U, .A] = none := rfl
    have hCh : hotCapacity bothOutletsInput = some 1 := by
      simp [hotCapacity, bothOutletsInput]
    have hCc : coldCapacity bothOutletsInput = some 1 := by
      simp [coldCapacity, bothOutletsInput]
    have hCmin : minCapacity (some 1) (some 1) = some 1 := by
      simp [minCapacity]
    have hCmax : maxCapacity (some 1) (some 1) = some 1 := by
      simp [maxCapacity]
    have hCr : capacityRatio (some 1) (some 1) = some 1 := by
      simp [capacityRatio]
    have hinterp : calcInterdep .counter [.Th_out, .Tc_out] bothOutletsInput
        (some 1) (some 1) bothOutletsInput = .ok bothOutletsInput := by
      rw [calcInterdep]
      have h1 : interdepQ [.Th_out, .Tc_out] bothOutletsInput (some 1) (some 1)
          bothOutletsInput = bothOutletsInput := by
        simp [interdepQ]
      have h2 : interdepTcOut [.Th_out, .Tc_out] bothOutletsInput (some 1)
          bothOutletsInput = bothOutletsInput := by
        simp [interdepTcOut, bothOutletsInput, truthy]
      have h3 : interdepThOut [.Th_out, .Tc_out] bothOutletsInput (some 1)
          bothOutletsInput = bothOutletsInput := by
        simp [interdepThOut, bothOutletsInput, truthy]
      rw [h1, h2, h3]
      simp [interdepA]
    have heff : computeEffectiveness (some 1) (some 1) .counter =
        some (1 / 2) := by
      simp [computeEffectiveness]
      norm_num
    have hboth : bothOutletsStep .counter .c12 [.Th_out, .Tc_out]
        bothOutletsInput (some 1) (some 1) (some 1) (some 1) bothOutletsInput =
        .ok (upd (upd (upd bothOutletsInput .Q 30) .Th_out 50) .Tc_out 50) := by
      simp only [bothOutletsStep, bothOutletsInput, val_some, reduceCtorEq,
        not_false_eq_true, and_self, and_true, true_and, List.mem_cons,
        List.mem_singleton, eq_self_iff_true, or_true, true_or, if_true]
      norm_num [heff, upd, bothOutletsInput]
    have hlm : computeLMTD .counter 80 20 50 50 = .ok 30 := by
      simp only [computeLMTD, reduceCtorEq, if_false]
      rw [if_pos (by norm_num)]
      norm_num
    have hlf : lmtdFields .counter .c12 (some 80) (some 20) (some 50) (some 50)
        = .ok (some 30,
          some (calculateCorrectionFactor ((50 - 20) / (80 - 20))
            ((80 - 50) / (50 - 20)) .c12),
          some (calculateCorrectionFactor ((50 - 20) / (80 - 20))
            ((80 - 50) / (50 - 20)) .c12 * 30)) := by
      simp only [lmtdFields, hlm, truthy_some, val_some]
      rw [if_pos (by norm_num)]
      rw [if_pos ⟨by decide, by decide⟩]
    have hfin : Except.map HXOut.epsilon
        (finalize .counter .c12 bothOutletsInput (some 1) (some 1) (some 1)
          (upd (upd (upd bothOutletsInput .Q 30) .Th_out 50) .Tc_out 50)) =
        .ok (some (1 / 2)) := by
      simp only [finalize, bothOutletsInput, jsOr, upd, truthy_some, val_some,
        reduceCtorEq, if_false, if_true]
      norm_num [hlf, validityCheck, Except.map]
      simp [upd]
    simp only [solveHeatExchanger, hfind, hk, hCh, hCc, hCmin, hCmax, hCr,
      hinterp, hboth, reduceCtorEq]
    exact hfin

/-- C3 amended witness: the effectiveness bound instantiated at `NTU = 1`,
`Cr = 1/2`, parallel flow. -/
theorem C3_amended_witness :
    0 ≤ (1 - Real.exp (-(1 : ℝ) * (1 + 1 / 2))) / (1 + 1 / 2) ∧
    (1 - Real.exp (-(1 : ℝ) * (1 + 1 / 2))) / (1 + 1 / 2) ≤ 1 := by
  have heq : computeEffectiveness (some 1) (some (1 / 2)) .parallel =
      some ((1 - Real.exp (-(1 : ℝ) * (1 + 1 / 2))) / (1 + 1 / 2)) := by
    simp only [computeEffectiveness, truthy_some, val_some]
    rw [if_neg (by norm_num), if_neg (by decide)]
    simp
  exact C3_amended.1 1 (1 / 2) _ .parallel (by norm_num) (by norm_num)
    (by norm_num) heq

end HeatCalc
